import Mathlib

/-
  Verification development for the `monitor` service repository.

  The embedding below models the pure core of
  `src/services/monitorApplications.service.ts` (the current generation of the
  service, given here as `src/unnamed/part_000`, second document) together with
  the legacy generation (`src/src/services/monitorApplications.service.ts`,
  modelled in namespace `Monitor.Legacy`).

  JavaScript objects that the differ manipulates are modelled as association
  lists `List (String × _)` in key-insertion order (a parsed JSON object has
  pairwise-distinct keys; theorems take `Nodup` hypotheses where that matters).
  Thrown exceptions are modelled with `Except Unit`.
-/

namespace Monitor

/-- A JSON-ish runtime value as handled by the service.  `vundefined` models
JavaScript `undefined`, which can occur as a property's `value`.  Nested
arrays and objects are cons-encoded (`vnil`/`vcons` for array cells,
`vobjEmpty`/`vfield` for object fields) so that structural deep equality is
plain equality of this type; the code only ever tests such values for deep
equality, object-ness, and display rendering, never their shape. -/
inductive JSValue where
  | vundefined : JSValue
  | vnull : JSValue
  | vbool (b : Bool) : JSValue
  | vnum (n : Int) : JSValue
  | vstr (s : String) : JSValue
  | vnil : JSValue
  | vcons (head tail : JSValue) : JSValue
  | vobjEmpty : JSValue
  | vfield (key : String) (val tail : JSValue) : JSValue
deriving DecidableEq, Repr

/-- Modelled from the spec: the `IProperty` interface file is not under `src/`
(only its uses are).  Spec §3 "Property": `name` (display label), `value`
(opaque scalar or nested structure, possibly `undefined`), and the
watch-for-change flag, which the code accesses as `isListeningModifiedEvent`. -/
structure Property where
  name : String
  value : JSValue
  isListeningModifiedEvent : Bool
deriving DecidableEq, Repr

/-- remeda's `isObjectType`: `typeof x === "object" && x !== null`
(arrays included). -/
def JSValue.isObjectType : JSValue → Bool
  | .vnil => true
  | .vcons _ _ => true
  | .vobjEmpty => true
  | .vfield _ _ _ => true
  | _ => false

/-- `Object.keys` of an association-list object. -/
def keysOf {β : Type} (m : List (String × β)) : List String := m.map Prod.fst

/-- `keySet?.has(key)` where the set may be null (`null?.has(k)` is `undefined`,
hence falsy). -/
def keySetHas (keys : Option (List String)) (k : String) : Bool :=
  match keys with
  | some ks => ks.contains k
  | none => false

/-- The value-comparison of part_000 lines 340-345: `isDeepEqual` when both
values are objects, strict `!==` otherwise.  In this model both branches are
structural inequality: the strict-equality branch never compares two object
references (at most one operand is an object there), and on scalars strict
equality is structural (the model has no NaN). -/
def valueChanged (newValue oldValue : JSValue) : Bool :=
  if newValue.isObjectType && oldValue.isObjectType then
    decide (¬ newValue = oldValue)
  else
    decide (¬ newValue = oldValue)

/-- `oldProperty?.value`: `undefined` when the property is missing. -/
def optionalValue : Option Property → JSValue
  | some p => p.value
  | none => .vundefined

/-- One step of the `subResponseDataMonitorKeySet.forEach` classifier
(part_000 lines 327-350).  `responseMap` is the stored previous snapshot
(`monitorApplication.response_map`).  A record-shaped property always passes
the source's `isObjectType(newProperty)` test. -/
def classifyStep (responseMap : Option (List (String × Property)))
    (acc : List (String × Property) × List (String × Property))
    (entry : String × Property) :
    List (String × Property) × List (String × Property) :=
  let addedMap := acc.1
  let modifiedMap := acc.2
  let key := entry.1
  let newProperty := entry.2
  if !(keySetHas (responseMap.map keysOf) key) then
    (addedMap ++ [(key, newProperty)], modifiedMap)
  else if decide (¬ newProperty.value = JSValue.vundefined) && newProperty.isListeningModifiedEvent then
    let oldProperty := (responseMap.getD []).lookup key
    if valueChanged newProperty.value (optionalValue oldProperty) then
      (addedMap, modifiedMap ++ [(key, newProperty)])
    else
      acc
  else
    acc

/-- The full classification pass over the current payload's keys, producing
`propertyAddedMap` and `propertyModifiedMap` in key order. -/
def classifyProperties (responseMap : Option (List (String × Property)))
    (current : List (String × Property)) :
    List (String × Property) × List (String × Property) :=
  current.foldl (classifyStep responseMap) ([], [])

/-- `Set.add`: insertion-order set insert. -/
def setAdd (s : List String) (k : String) : List String :=
  if s.contains k then s else s ++ [k]

/-- `propertyRemovedSet` (part_000 lines 352-360): previous-snapshot keys
absent from the current payload. -/
def removedKeySet (responseMap : Option (List (String × Property)))
    (currentKeys : List String) : List String :=
  match responseMap with
  | none => []
  | some previous =>
      (keysOf previous).foldl
        (fun s key => if !(currentKeys.contains key) then setAdd s key else s) []

/-- JavaScript object spread `{ ...a, ...b }`: keys of `a` in order (values
overridden by `b` on key clash), then the keys of `b` not present in `a`. -/
def jsSpreadPair (a b : List (String × Property)) : List (String × Property) :=
  (a.map fun kv =>
    match b.lookup kv.1 with
    | some v => (kv.1, v)
    | none => kv)
  ++ b.filter fun kv => (a.lookup kv.1).isNone

/-- `elapsedMiliseconds.toFixed(1)` on the already-rounded integer latency. -/
def syntheticResponseTimeValue (elapsedMiliseconds : Nat) : String :=
  s!"{elapsedMiliseconds}.0ms"

/-- The synthetic latency property carried by `defaultRetentionMap`
(part_000 lines 296-301).  Its JS literal has no `isListeningModifiedEvent`
field, i.e. that flag reads as undefined/false. -/
def syntheticResponseTimeProperty (elapsedMiliseconds : Nat) : Property :=
  { name := "Tempo de resposta"
    value := .vstr (syntheticResponseTimeValue elapsedMiliseconds)
    isListeningModifiedEvent := false }

def defaultRetentionMap (elapsedMiliseconds : Nat) : List (String × Property) :=
  [("responseTime", syntheticResponseTimeProperty elapsedMiliseconds)]

/-- The four diff buckets produced by one fetch+diff cycle. -/
structure DiffResult where
  propertyAddedMap : List (String × Property)
  propertyModifiedMap : List (String × Property)
  propertyRemovedSet : List String
  propertyRetentionMap : List (String × Property)
deriving DecidableEq, Repr

/-- The Snapshot Differ (part_000 lines 321-369): classify the current
payload `subResponseDataMonitor` against the stored snapshot `responseMap`,
then build the retention map of unclassified current keys with the synthetic
`responseTime` entry spread in last. -/
def diffProperties (responseMap : Option (List (String × Property)))
    (subResponseDataMonitor : List (String × Property))
    (elapsedMiliseconds : Nat) : DiffResult :=
  let pair := classifyProperties responseMap subResponseDataMonitor
  let addedMap := pair.1
  let modifiedMap := pair.2
  let removedSet := removedKeySet responseMap (keysOf subResponseDataMonitor)
  let retentionMap := jsSpreadPair
    (subResponseDataMonitor.filter fun kv =>
      (addedMap.lookup kv.1).isNone && (modifiedMap.lookup kv.1).isNone
        && !(removedSet.contains kv.1))
    (defaultRetentionMap elapsedMiliseconds)
  ⟨addedMap, modifiedMap, removedSet, retentionMap⟩

/-- Predicate form of the `added` classification: the key is absent from the
stored snapshot (or the snapshot is null). -/
def isAddedProperty (responseMap : Option (List (String × Property)))
    (entry : String × Property) : Bool :=
  !(keySetHas (responseMap.map keysOf) entry.1)

/-- Predicate form of the `modified` classification. -/
def isModifiedProperty (responseMap : Option (List (String × Property)))
    (entry : String × Property) : Bool :=
  keySetHas (responseMap.map keysOf) entry.1
    && (decide (¬ entry.2.value = JSValue.vundefined) && entry.2.isListeningModifiedEvent)
    && valueChanged entry.2.value (optionalValue ((responseMap.getD []).lookup entry.1))

/-- The filter of part_000 line 365 in predicate form: the current keys kept
for the retention map, i.e. those not already classified. -/
def retentionBase (responseMap : Option (List (String × Property)))
    (current : List (String × Property)) : List (String × Property) :=
  current.filter fun kv =>
    ((current.filter (isAddedProperty responseMap)).lookup kv.1).isNone
      && ((current.filter (isModifiedProperty responseMap)).lookup kv.1).isNone
      && !((removedKeySet responseMap (keysOf current)).contains kv.1)

/-- `subResponse.data` of a gateway sub-resource: the optional monitor-shaped
payload.  `none` models an absent or non-object `monitor` field (the source
guards it with remeda's `isObjectType`). -/
structure SubResponseData where
  monitor : Option (List (String × Property))
deriving DecidableEq, Repr

/-- One entry of the gateway's aggregated `response.data.data`, keyed by the
registered api's name. -/
structure SubResponse where
  status : Bool
  data : Option SubResponseData
deriving DecidableEq, Repr

/-- `IMonitorApplicationHealthMap` of the current generation: reachability,
the raw monitor payload, and the four diff buckets. -/
structure MonitorApplicationHealthMap where
  isHealthy : Bool
  responseMap : Option (List (String × Property)) := none
  propertyAddedMap : Option (List (String × Property)) := none
  propertyModifiedMap : Option (List (String × Property)) := none
  propertyRemovedSet : Option (List String) := none
  propertyRetentionMap : List (String × Property)
deriving DecidableEq, Repr

/-- Pure core of `fetchMonitorApplicationHealthMap` (part_000 lines 266-379)
after the HTTP round trip: `gatewayDataMap` models `response?.data?.data`
(`none` for a failed/empty response), `apiName` the name of the resolved
`api_gateway_apis` row (`none` when the row lookup finds nothing),
`responseMap` the stored previous snapshot and `elapsedMiliseconds` the
measured latency.  `.error ()` models a thrown `TypeError`: when the named
sub-resource is missing, the source still evaluates `subResponse.status` on
`null`/`undefined`. -/
def fetchMonitorApplicationHealthMap
    (gatewayDataMap : Option (List (String × SubResponse)))
    (apiName : Option String)
    (responseMap : Option (List (String × Property)))
    (elapsedMiliseconds : Nat) : Except Unit MonitorApplicationHealthMap :=
  match gatewayDataMap with
  | none =>
      .ok { isHealthy := false
            propertyRetentionMap := defaultRetentionMap elapsedMiliseconds }
  | some dataMap =>
      let subResponse : Option SubResponse := apiName.bind fun nm => dataMap.lookup nm
      let subResponseDataMonitor : Option (List (String × Property)) :=
        subResponse.bind fun sr => sr.data.bind fun d => d.monitor
      match subResponseDataMonitor with
      | none =>
          match subResponse with
          | none => .error ()
          | some sr =>
              .ok { isHealthy := sr.status
                    propertyRetentionMap := defaultRetentionMap elapsedMiliseconds }
      | some monitorMap =>
          let d := diffProperties responseMap monitorMap elapsedMiliseconds
          .ok { isHealthy := true
                responseMap := some monitorMap
                propertyAddedMap := some d.propertyAddedMap
                propertyModifiedMap := some d.propertyModifiedMap
                propertyRemovedSet := some d.propertyRemovedSet
                propertyRetentionMap := d.propertyRetentionMap }

/-- Truncation toward zero, JavaScript's implicit conversion in `%`. -/
def jsTrunc (x : Rat) : Int := if 0 ≤ x then ⌊x⌋ else ⌈x⌉

/-- JavaScript `%` on numbers: `x - y * trunc(x / y)`. -/
def jsMod (x y : Rat) : Rat := x - y * (jsTrunc (x / y) : Rat)

/-- `formatDuration` (part_000 lines 401-415). -/
def formatDuration (totalMinutes : Rat) : String :=
  let t : Int := ⌊totalMinutes⌋
  let days : Int := ⌊(t : Rat) / (60 * 24)⌋
  let hours : Int := ⌊jsMod ((t : Rat) / 60) 24⌋
  let minutes : Int := ⌊jsMod (t : Rat) 60⌋
  let partList : List String :=
    ([if days > 0 then some s!"{days}d" else none,
      if hours > 0 then some s!"{hours}h" else none,
      if minutes > 0 then some s!"{minutes}m" else none] : List (Option String)).filterMap id
  if partList.length != 0 then String.intercalate " " partList else "0m"

/-- JavaScript template-literal string coercion of a value (`${ value }`).
Arrays join their displayed elements with `,` (null/undefined elements render
empty); plain objects render as `[object Object]`. -/
def JSValue.toDisplayString : JSValue → String
  | .vundefined => "undefined"
  | .vnull => "null"
  | .vbool b => cond b "true" "false"
  | .vnum n => toString n
  | .vstr s => s
  | .vobjEmpty => "[object Object]"
  | .vfield _ _ _ => "[object Object]"
  | .vnil => ""
  | .vcons head tail =>
      (match head with
       | .vundefined => ""
       | .vnull => ""
       | h => h.toDisplayString)
      ++ (match tail with
          | .vnil => ""
          | t => "," ++ t.toDisplayString)

/-- `IMonitorApplicationMessageMap`: the per-service rendered text blocks. -/
structure MonitorApplicationMessageMap where
  propertyAddedMessage : Option String
  propertyModifiedMessage : Option String
  propertyRemovedMessage : Option String
  propertyRetentionMessage : String
deriving DecidableEq, Repr

/-- The `reduce` shared by the added/modified/retention renderings
(part_000 lines 429-447): start from the header and append one
`\n<marker> <name>: _<value>_` line per property. -/
def reduceValueLines (marker : String) (head : String) (properties : List Property) : String :=
  properties.foldl
    (fun accumulator property =>
      accumulator ++ s!"\n{marker} {property.name}: _" ++ property.value.toDisplayString ++ "_")
    head

/-- The removed-name rendering (part_000 lines 439-443): one `\n- <name>`
line per removed key. -/
def reduceNameLines (head : String) (names : List String) : String :=
  names.foldl (fun accumulator nm => accumulator ++ s!"\n- {nm}") head

/-- A `monitor_applications` row (the fields the service reads).  Timestamps
are modelled as integer epoch milliseconds. -/
structure MonitorApplication where
  id : Nat
  application_type : String
  response_map : Option (List (String × Property))
  is_alive : Bool
  is_monitor_application_active : Bool
  is_alive_transition_at : Int
deriving DecidableEq, Repr

/-- `formatMonitorApplicationMessageMap` (part_000 lines 417-448).  `now`
models `momentTimezone().utc().toDate().getTime()`. -/
def formatMonitorApplicationMessageMap
    (monitorApplication : MonitorApplication)
    (monitorApplicationHealthMap : MonitorApplicationHealthMap)
    (isAliveTransitionAt : Option Int)
    (now : Int) : MonitorApplicationMessageMap :=
  let messageHead := s!"[{monitorApplication.application_type}]"
  let retentionMessageHead :=
    match isAliveTransitionAt with
    | some t =>
        messageHead ++ "\n= Desde: _"
          ++ formatDuration (((now - t : Int) : Rat) / 60000) ++ "_"
    | none => messageHead
  { propertyAddedMessage :=
      match monitorApplicationHealthMap.propertyAddedMap with
      | some m =>
          if m.length != 0 then
            some (reduceValueLines "+" messageHead (m.map Prod.snd))
          else none
      | none => none
    propertyModifiedMessage :=
      match monitorApplicationHealthMap.propertyModifiedMap with
      | some m =>
          if m.length != 0 then
            some (reduceValueLines "~" messageHead (m.map Prod.snd))
          else none
      | none => none
    propertyRemovedMessage :=
      match monitorApplicationHealthMap.propertyRemovedSet with
      | some s =>
          if s.length != 0 then some (reduceNameLines messageHead s) else none
      | none => none
    propertyRetentionMessage :=
      reduceValueLines "=" retentionMessageHead
        (monitorApplicationHealthMap.propertyRetentionMap.map Prod.snd) }

/-- The single `prisma.monitor_applications.update` payload
(`updateMonitorApplication`, part_000 lines 381-399). -/
structure UpdateData where
  response_map : Option (List (String × Property))
  is_alive : Bool
  is_alive_transition_at : Int
  updated_at : Int
deriving DecidableEq, Repr

/-- `IMonitorApplicationMap`: one reportable per-service outcome. -/
structure MonitorApplicationMap where
  isHealthy : Bool
  messageMap : MonitorApplicationMessageMap
deriving DecidableEq, Repr

/-- Pure core of `processMonitorApplication` (part_000 lines 450-502): given
the fetched health map, decide reportability, compute the persisted row
update and the render.  `none` models the `null` outcome (not reportable). -/
def processMonitorApplication
    (monitorApplication : MonitorApplication)
    (monitorApplicationHealthMap : MonitorApplicationHealthMap)
    (isPeriodicWarn : Bool)
    (now : Int) : Option (UpdateData × MonitorApplicationMap) :=
  let isAliveTransitioned :=
    monitorApplicationHealthMap.isHealthy != monitorApplication.is_alive
  let hasPropertyAdded :=
    (monitorApplicationHealthMap.propertyAddedMap.getD []).length != 0
  let hasPropertyModified :=
    (monitorApplicationHealthMap.propertyModifiedMap.getD []).length != 0
  let hasPropertyRemoved :=
    (monitorApplicationHealthMap.propertyRemovedSet.getD []).length != 0
  if isPeriodicWarn || isAliveTransitioned || hasPropertyAdded
      || hasPropertyModified || hasPropertyRemoved then
    let isHealthy :=
      if isAliveTransitioned then monitorApplicationHealthMap.isHealthy
      else monitorApplication.is_alive
    let isAliveTransitionAt :=
      if isAliveTransitioned then now else monitorApplication.is_alive_transition_at
    some
      ({ response_map := monitorApplicationHealthMap.responseMap
         is_alive := isHealthy
         is_alive_transition_at := isAliveTransitionAt
         updated_at := now },
       { isHealthy := isHealthy
         messageMap :=
           formatMonitorApplicationMessageMap monitorApplication
             monitorApplicationHealthMap
             (if isPeriodicWarn || isAliveTransitioned then some isAliveTransitionAt else none)
             now })
  else
    none

/-- The report text of `sendApplicationMonitoringReport`
(part_000 lines 523-531): header, the five optional sections in fixed order,
and the host footer, with falsy pieces filtered out and joined. -/
def reportMessage (serverIp : String)
    (serviceOnlineMessageList serviceOfflineMessageList
      propertyAddedMessageList propertyModifiedMessageList
      propertyRemovedMessageList : List String) : String :=
  String.join (([
    some "📌 *MONITOR DE SERVIÇOS* 📌",
    if serviceOnlineMessageList.length > 0 then
      some (s!"\n\n⚡ *SERVIÇO ONLINE ({serviceOnlineMessageList.length})* ⚡\n\n"
        ++ String.intercalate "\n\n" serviceOnlineMessageList)
    else none,
    if serviceOfflineMessageList.length > 0 then
      some (s!"\n\n💤 *SERVIÇO OFFLINE ({serviceOfflineMessageList.length})* 💤\n\n"
        ++ String.intercalate "\n\n" serviceOfflineMessageList)
    else none,
    if propertyAddedMessageList.length > 0 then
      some (s!"\n\n🔼 *PROP. ADICIONADA ({propertyAddedMessageList.length})* 🔼\n\n"
        ++ String.intercalate "\n\n" propertyAddedMessageList)
    else none,
    if propertyModifiedMessageList.length > 0 then
      some (s!"\n\n🔄 *PROP. MODIFICADA ({propertyModifiedMessageList.length})* 🔄\n\n"
        ++ String.intercalate "\n\n" propertyModifiedMessageList)
    else none,
    if propertyRemovedMessageList.length > 0 then
      some (s!"\n\n🔽 *PROP. REMOVIDA ({propertyRemovedMessageList.length})* 🔽\n\n"
        ++ String.intercalate "\n\n" propertyRemovedMessageList)
    else none,
    some s!"\n\n🌐 *Servidor*: _{serverIp}_"
  ] : List (Option String)).filterMap id)

/-- The send decision of `sendApplicationMonitoringReport`
(part_000 lines 504-544): `none` when all five buckets are empty (early
return, the notification transport is never invoked), otherwise the posted
message body. -/
def sendApplicationMonitoringReport (serverIp : String)
    (serviceOnlineMessageList serviceOfflineMessageList
      propertyAddedMessageList propertyModifiedMessageList
      propertyRemovedMessageList : List String) : Option String :=
  if serviceOnlineMessageList.length = 0 ∧ serviceOfflineMessageList.length = 0
      ∧ propertyAddedMessageList.length = 0 ∧ propertyModifiedMessageList.length = 0
      ∧ propertyRemovedMessageList.length = 0 then
    none
  else
    some (reportMessage serverIp serviceOnlineMessageList serviceOfflineMessageList
      propertyAddedMessageList propertyModifiedMessageList propertyRemovedMessageList)

/-- Control-flow outcome of one delivery attempt: did a rejection escape the
sending function, and did the function log the failure itself. -/
structure DeliveryOutcome where
  thrown : Bool
  loggedError : Bool
deriving DecidableEq, Repr

/-- Exception behaviour of `sendApplicationMonitoringReport`
(part_000 lines 504-544): there is no try/catch around the transport post,
so a failed post (`postFails = true`) rejects past the function and nothing
is logged inside it.  (The caller `monitorApplications`, line 572, invokes it
without `await`, so its own catch block cannot observe the rejection either.) -/
def sendApplicationMonitoringReportRun
    (serviceOnlineMessageList serviceOfflineMessageList
      propertyAddedMessageList propertyModifiedMessageList
      propertyRemovedMessageList : List String)
    (postFails : Bool) : DeliveryOutcome :=
  if serviceOnlineMessageList.length = 0 ∧ serviceOfflineMessageList.length = 0
      ∧ propertyAddedMessageList.length = 0 ∧ propertyModifiedMessageList.length = 0
      ∧ propertyRemovedMessageList.length = 0 then
    { thrown := false, loggedError := false }
  else
    { thrown := postFails, loggedError := false }

/-- The bucket-aggregation loop of `monitorApplications`
(part_000 lines 551-570), over the non-null per-service outcomes. -/
def aggregateBuckets (maps : List MonitorApplicationMap) :
    List String × List String × List String × List String × List String :=
  maps.foldl
    (fun acc m =>
      let (onl, off, addl, mdfl, rmvl) := acc
      let mm := m.messageMap
      if m.isHealthy then
        (onl ++ [mm.propertyRetentionMessage],
         off,
         (match mm.propertyAddedMessage with
          | some s => addl ++ [s]
          | none => addl),
         (match mm.propertyModifiedMessage with
          | some s => mdfl ++ [s]
          | none => mdfl),
         (match mm.propertyRemovedMessage with
          | some s => rmvl ++ [s]
          | none => rmvl))
      else
        (onl, off ++ [mm.propertyRetentionMessage], addl, mdfl, rmvl))
    ([], [], [], [], [])

/-- The tail of one `monitorApplications` cycle (part_000 lines 549-578):
filter the null outcomes, aggregate the five buckets, and decide the
notification; `none` means the sink was not invoked. -/
def runReportPipeline (serverIp : String)
    (monitorApplicationMapList : List (Option MonitorApplicationMap)) : Option String :=
  let filtered := monitorApplicationMapList.filterMap id
  let buckets := aggregateBuckets filtered
  sendApplicationMonitoringReport serverIp buckets.1 buckets.2.1 buckets.2.2.1
    buckets.2.2.2.1 buckets.2.2.2.2

end Monitor

namespace Monitor.Legacy

/-- A legacy `monitor_applications` row
(`src/src/services/interfaces/IMonitorApplication.ts`). -/
structure MonitorApplication where
  id : Nat
  application_type : String
  is_alive : Bool
  is_alive_transition_notified_by_monitor : Bool
  is_monitor_application_active : Bool
  is_alive_transition_at : Int
deriving DecidableEq, Repr

/-- One `{ name, value }` entry of the legacy health map's `data`. -/
structure HealthDataEntry where
  name : String
  value : JSValue
deriving DecidableEq, Repr

/-- The legacy `IMonitorApplicationHealthMap`: reachability plus the flat
`data` object (monitor fields spread together with `responseTime`). -/
structure MonitorApplicationHealthMap where
  isHealthy : Bool
  data : List (String × HealthDataEntry)
deriving DecidableEq, Repr

/-- The legacy `updateMonitorApplicationAliveStatus` payload
(`monitorApplications.service.ts` lines 135-150): it always sets
`is_alive_transition_notified_by_monitor` to true. -/
structure UpdateRow where
  is_alive : Bool
  is_alive_transition_notified_by_monitor : Bool
  is_alive_transition_at : Int
deriving DecidableEq, Repr

/-- The legacy `IMonitorApplicationMap`. -/
structure MonitorApplicationMap where
  isHealthy : Bool
  information : String
deriving DecidableEq, Repr

/-- Modelled from the spec: the expressium `dateTimeFormatterUtil.formatDuration`
helper imported by the legacy service is not under `src/`; the spec (§4.2,
"time since transition ... rendered in a duration-since format") describes the
same days/hours/minutes rendering that the current generation implements
in-repo, so the in-repo `formatDuration` stands in for it. -/
def dateTimeFormatterUtilFormatDuration (totalMinutes : Rat) : String :=
  Monitor.formatDuration totalMinutes

/-- Legacy `formatMonitorApplicationInformation`
(`monitorApplications.service.ts` lines 121-130): the `[type]` header, a
`- Desde: <duration>` line, then one `- <name>: <value>` line per entry of
the health map's `data`. -/
def formatMonitorApplicationInformation
    (monitorApplication : MonitorApplication)
    (monitorApplicationHealthMap : MonitorApplicationHealthMap)
    (isAliveTransitionAt : Int)
    (now : Int) : String :=
  (monitorApplicationHealthMap.data.map Prod.snd).foldl
    (fun accumulator entry =>
      accumulator ++ s!"\n- {entry.name}: " ++ entry.value.toDisplayString)
    (s!"[{monitorApplication.application_type}]\n- Desde: "
      ++ dateTimeFormatterUtilFormatDuration (((now - isAliveTransitionAt : Int) : Rat) / 60000))

/-- Pure core of the legacy `processMonitorApplication`
(`monitorApplications.service.ts` lines 152-204): returns the persisted row
update (if any) and the render (if any). -/
def processMonitorApplication
    (monitorApplication : MonitorApplication)
    (monitorApplicationHealthMap : MonitorApplicationHealthMap)
    (isPeriodicWarn : Bool)
    (now : Int) : Option UpdateRow × Option MonitorApplicationMap :=
  if isPeriodicWarn then
    (none,
     some { isHealthy := monitorApplication.is_alive
            information := formatMonitorApplicationInformation monitorApplication
              monitorApplicationHealthMap monitorApplication.is_alive_transition_at now })
  else if monitorApplicationHealthMap.isHealthy && !monitorApplication.is_alive then
    (some { is_alive := true
            is_alive_transition_notified_by_monitor := true
            is_alive_transition_at := now },
     some { isHealthy := true
            information := formatMonitorApplicationInformation monitorApplication
              monitorApplicationHealthMap now now })
  else if !monitorApplicationHealthMap.isHealthy && monitorApplication.is_alive then
    (some { is_alive := false
            is_alive_transition_notified_by_monitor := true
            is_alive_transition_at := now },
     some { isHealthy := false
            information := formatMonitorApplicationInformation monitorApplication
              monitorApplicationHealthMap now now })
  else if !monitorApplication.is_alive_transition_notified_by_monitor then
    (some { is_alive := monitorApplication.is_alive
            is_alive_transition_notified_by_monitor := true
            is_alive_transition_at := monitorApplication.is_alive_transition_at },
     some { isHealthy := monitorApplication.is_alive
            information := formatMonitorApplicationInformation monitorApplication
              monitorApplicationHealthMap monitorApplication.is_alive_transition_at now })
  else
    (none, none)

/-- Exception behaviour of the legacy `sendMonitoringReport`
(`monitorApplications.service.ts` lines 206-252): the transport post is
wrapped in try/catch, so a failed post is logged and never rejects past the
function. -/
def sendMonitoringReportRun
    (onlineInformationList offlineInformationList : List String)
    (postFails : Bool) : DeliveryOutcome :=
  if onlineInformationList.length = 0 ∧ offlineInformationList.length = 0 then
    { thrown := false, loggedError := false }
  else
    { thrown := false, loggedError := postFails }

end Monitor.Legacy

namespace Monitor

/-- Spec-side rendering of the online report section: empty bucket
contributes nothing, a non-empty bucket contributes a title carrying its
element count followed by the joined blocks. -/
def onlineSection (serviceOnlineMessageList : List String) : String :=
  if serviceOnlineMessageList.length > 0 then
    s!"\n\n⚡ *SERVIÇO ONLINE ({serviceOnlineMessageList.length})* ⚡\n\n"
      ++ String.intercalate "\n\n" serviceOnlineMessageList
  else ""

/-- Spec-side rendering of the offline report section. -/
def offlineSection (serviceOfflineMessageList : List String) : String :=
  if serviceOfflineMessageList.length > 0 then
    s!"\n\n💤 *SERVIÇO OFFLINE ({serviceOfflineMessageList.length})* 💤\n\n"
      ++ String.intercalate "\n\n" serviceOfflineMessageList
  else ""

/-- Spec-side rendering of the added-properties report section. -/
def addedSection (propertyAddedMessageList : List String) : String :=
  if propertyAddedMessageList.length > 0 then
    s!"\n\n🔼 *PROP. ADICIONADA ({propertyAddedMessageList.length})* 🔼\n\n"
      ++ String.intercalate "\n\n" propertyAddedMessageList
  else ""

/-- Spec-side rendering of the modified-properties report section. -/
def modifiedSection (propertyModifiedMessageList : List String) : String :=
  if propertyModifiedMessageList.length > 0 then
    s!"\n\n🔄 *PROP. MODIFICADA ({propertyModifiedMessageList.length})* 🔄\n\n"
      ++ String.intercalate "\n\n" propertyModifiedMessageList
  else ""

/-- Spec-side rendering of the removed-properties report section. -/
def removedSection (propertyRemovedMessageList : List String) : String :=
  if propertyRemovedMessageList.length > 0 then
    s!"\n\n🔽 *PROP. REMOVIDA ({propertyRemovedMessageList.length})* 🔽\n\n"
      ++ String.intercalate "\n\n" propertyRemovedMessageList
  else ""

/-- Spec-side property-line rendering: one `\n<marker> <name>: _<value>_`
line per property. -/
def renderValueLines (marker : String) (properties : List Property) : String :=
  String.join (properties.map fun property =>
    s!"\n{marker} {property.name}: _" ++ property.value.toDisplayString ++ "_")

/-- Spec-side removed-key rendering: one `\n- <name>` line per key. -/
def renderNameLines (names : List String) : String :=
  String.join (names.map fun nm => s!"\n- {nm}")

/-- Spec-side duration rendering: only the non-zero components, in the order
days, hours, minutes, joined by single spaces; `0m` when all are zero. -/
def renderDurationParts (d h r : Nat) : String :=
  let parts :=
    (if d > 0 then [s!"{d}d"] else []) ++ (if h > 0 then [s!"{h}h"] else [])
      ++ (if r > 0 then [s!"{r}m"] else [])
  if parts = [] then "0m" else String.intercalate " " parts

/-- Concrete watched property (previous value), used by witnesses. -/
def previousCountProperty : Property :=
  { name := "Contagem", value := .vnum 3, isListeningModifiedEvent := true }

/-- Concrete watched property (current value), used by witnesses. -/
def currentCountProperty : Property :=
  { name := "Contagem", value := .vnum 5, isListeningModifiedEvent := true }

/-- Concrete unwatched property, used by witnesses. -/
def unwatchedLabelProperty : Property :=
  { name := "Etiqueta", value := .vstr "x", isListeningModifiedEvent := false }

/-- Concrete previous snapshot, used by witnesses. -/
def previousSnapshotW : List (String × Property) :=
  [("count", previousCountProperty), ("label", unwatchedLabelProperty)]

/-- Concrete current payload, used by witnesses. -/
def currentPayloadW : List (String × Property) :=
  [("count", currentCountProperty), ("label", unwatchedLabelProperty)]

/-- Concrete service row (currently dead), used by witnesses. -/
def deadApplicationW : MonitorApplication :=
  { id := 1
    application_type := "API"
    response_map := some previousSnapshotW
    is_alive := false
    is_monitor_application_active := true
    is_alive_transition_at := 100 }

/-- Concrete service row (currently alive), used by witnesses. -/
def aliveApplicationW : MonitorApplication :=
  { deadApplicationW with is_alive := true }

/-- Concrete healthy fetch outcome with no property deltas, used by
witnesses. -/
def quietHealthMapW : MonitorApplicationHealthMap :=
  { isHealthy := true
    responseMap := some currentPayloadW
    propertyAddedMap := some []
    propertyModifiedMap := some []
    propertyRemovedSet := some []
    propertyRetentionMap := defaultRetentionMap 12 }

/-- Concrete healthy fetch outcome, used by the state-machine witness. -/
def healthyHealthMapW : MonitorApplicationHealthMap :=
  { isHealthy := true
    responseMap := some currentPayloadW
    propertyRetentionMap := defaultRetentionMap 12 }

/-- The row update produced by `processMonitorApplication` on the
state-machine witness input. -/
def transitionUpdateW : UpdateData :=
  { response_map := some currentPayloadW
    is_alive := true
    is_alive_transition_at := 250
    updated_at := 250 }

/-- The render produced by `processMonitorApplication` on the state-machine
witness input. -/
def transitionRenderW : MonitorApplicationMap :=
  { isHealthy := true
    messageMap :=
      formatMonitorApplicationMessageMap deadApplicationW healthyHealthMapW (some 250) 250 }

/-- Concrete legacy service row with a pending unacknowledged transition,
used by witnesses. -/
def legacyPendingApplicationW : Legacy.MonitorApplication :=
  { id := 2
    application_type := "API"
    is_alive := true
    is_alive_transition_notified_by_monitor := false
    is_monitor_application_active := true
    is_alive_transition_at := 100 }

/-- Concrete legacy healthy fetch outcome, used by witnesses. -/
def legacyHealthyHealthMapW : Legacy.MonitorApplicationHealthMap :=
  { isHealthy := true
    data := [("responseTime", { name := "Tempo de resposta", value := .vstr "12.0ms" })] }

theorem join_cons_eq (a : String) (s : List String) :
    String.join (a :: s) = a ++ String.join s := by
  apply String.ext
  simp [String.join_eq, String.data_append]

theorem foldl_append_join {α : Type} (f : α → String) (l : List α) (head : String) :
    l.foldl (fun accumulator x => accumulator ++ f x) head
      = head ++ String.join (l.map f) := by
  induction l generalizing head with
  | nil => simp [String.join]
  | cons x xs ih =>
      simp only [List.foldl_cons, List.map_cons]
      rw [ih, join_cons_eq, String.append_assoc]

theorem keysOf_nil {β : Type} : keysOf ([] : List (String × β)) = [] := rfl

theorem keysOf_cons {β : Type} (k : String) (v : β) (tl : List (String × β)) :
    keysOf ((k, v) :: tl) = k :: keysOf tl := rfl

theorem mem_keysOf_iff {β : Type} (l : List (String × β)) (k : String) :
    k ∈ keysOf l ↔ ∃ v, (k, v) ∈ l := by
  unfold keysOf
  rw [List.mem_map]
  constructor
  · rintro ⟨⟨k', v⟩, hmem, rfl⟩
    exact ⟨v, hmem⟩
  · rintro ⟨v, hmem⟩
    exact ⟨(k, v), hmem, rfl⟩

theorem lookup_isSome_iff {β : Type} (l : List (String × β)) (k : String) :
    (l.lookup k).isSome ↔ k ∈ keysOf l := by
  induction l with
  | nil => simp [List.lookup, keysOf_nil]
  | cons kv tl ih =>
      obtain ⟨k', v⟩ := kv
      by_cases h : k = k'
      · subst h; simp [List.lookup, keysOf_cons]
      · have hb : (k == k') = false := by simp [h]
        simp only [List.lookup, hb, keysOf_cons, List.mem_cons]
        rw [ih]
        simp [h]

theorem lookup_eq_none_iff {β : Type} (l : List (String × β)) (k : String) :
    l.lookup k = none ↔ k ∉ keysOf l := by
  rw [← lookup_isSome_iff]
  cases h : l.lookup k <;> simp

theorem lookup_mem {β : Type} {l : List (String × β)} {k : String} {v : β}
    (h : l.lookup k = some v) : (k, v) ∈ l := by
  induction l with
  | nil => simp [List.lookup] at h
  | cons kv tl ih =>
      obtain ⟨k', v'⟩ := kv
      by_cases hk : k = k'
      · subst hk
        simp only [List.lookup, beq_self_eq_true] at h
        injection h with hv
        subst hv
        exact List.mem_cons_self ..
      · have hb : (k == k') = false := by simp [hk]
        simp only [List.lookup, hb] at h
        exact List.mem_cons_of_mem _ (ih h)

theorem lookup_of_mem_nodup {β : Type} {l : List (String × β)}
    (hnd : (keysOf l).Nodup) {k : String} {v : β}
    (hm : (k, v) ∈ l) : l.lookup k = some v := by
  induction l with
  | nil => simp at hm
  | cons kv tl ih =>
      obtain ⟨k', v'⟩ := kv
      simp only [keysOf_cons, List.nodup_cons] at hnd
      rcases List.mem_cons.mp hm with h | h
      · obtain ⟨hk, hv⟩ := Prod.ext_iff.mp h
        dsimp only at hk hv
        subst hk; subst hv
        simp [List.lookup]
      · have hk : ¬ k = k' := by
          intro hkk
          subst hkk
          exact hnd.1 ((mem_keysOf_iff tl k).mpr ⟨v, h⟩)
        have hb : (k == k') = false := by simp [hk]
        simp only [List.lookup, hb]
        exact ih hnd.2 h

theorem classify_foldl (responseMap : Option (List (String × Property)))
    (current : List (String × Property)) (a b : List (String × Property)) :
    current.foldl (classifyStep responseMap) (a, b)
      = (a ++ current.filter (isAddedProperty responseMap),
         b ++ current.filter (isModifiedProperty responseMap)) := by
  induction current generalizing a b with
  | nil => simp
  | cons e tl ih =>
      obtain ⟨k, p⟩ := e
      by_cases h1 : keySetHas (responseMap.map keysOf) k = true
      · by_cases h2 : ¬ p.value = JSValue.vundefined ∧ p.isListeningModifiedEvent = true
        · by_cases h3 :
              valueChanged p.value (optionalValue ((responseMap.getD []).lookup k)) = true
          · have hstep : classifyStep responseMap (a, b) (k, p) = (a, b ++ [(k, p)]) := by
              simp [classifyStep, h1, h2.1, h2.2, h3]
            have hA : isAddedProperty responseMap (k, p) = false := by
              simp [isAddedProperty, h1]
            have hM : isModifiedProperty responseMap (k, p) = true := by
              simp [isModifiedProperty, h1, h2.1, h2.2, h3]
            simp only [List.foldl_cons, hstep, List.filter_cons, hA, hM]
            rw [ih]
            simp
          · have h3b :
                valueChanged p.value (optionalValue ((responseMap.getD []).lookup k)) = false := by
              simpa using h3
            have hstep : classifyStep responseMap (a, b) (k, p) = (a, b) := by
              simp [classifyStep, h1, h2.1, h2.2, h3b]
            have hA : isAddedProperty responseMap (k, p) = false := by
              simp [isAddedProperty, h1]
            have hM : isModifiedProperty responseMap (k, p) = false := by
              simp [isModifiedProperty, h3b]
            simp only [List.foldl_cons, hstep, List.filter_cons, hA, hM]
            exact ih a b
        · have hstep : classifyStep responseMap (a, b) (k, p) = (a, b) := by
            simp only [classifyStep]
            rw [if_neg (by simp [h1]), if_neg (by simpa using h2)]
          have hA : isAddedProperty responseMap (k, p) = false := by
            simp [isAddedProperty, h1]
          have hM : isModifiedProperty responseMap (k, p) = false := by
            simp only [isModifiedProperty]
            rw [Bool.and_eq_false_iff]
            left
            rw [Bool.and_eq_false_iff]
            right
            simpa using h2
          simp only [List.foldl_cons, hstep, List.filter_cons, hA, hM]
          exact ih a b
      · have h1b : keySetHas (responseMap.map keysOf) k = false := by
          simpa using h1
        have hstep : classifyStep responseMap (a, b) (k, p) = (a ++ [(k, p)], b) := by
          simp [classifyStep, h1b]
        have hA : isAddedProperty responseMap (k, p) = true := by
          simp [isAddedProperty, h1b]
        have hM : isModifiedProperty responseMap (k, p) = false := by
          simp [isModifiedProperty, h1b]
        simp only [List.foldl_cons, hstep, List.filter_cons, hA, hM]
        rw [ih]
        simp

theorem classifyProperties_eq (responseMap : Option (List (String × Property)))
    (current : List (String × Property)) :
    classifyProperties responseMap current
      = (current.filter (isAddedProperty responseMap),
         current.filter (isModifiedProperty responseMap)) := by
  unfold classifyProperties
  rw [classify_foldl]
  simp

theorem mem_setAdd (s : List String) (k k' : String) :
    k ∈ setAdd s k' ↔ k ∈ s ∨ k = k' := by
  unfold setAdd
  split
  · next h =>
      have hmem : k' ∈ s := by simpa using h
      constructor
      · exact Or.inl
      · rintro (hs | rfl)
        · exact hs
        · exact hmem
  · simp

theorem mem_removed_foldl (curKeys : List String) (keys : List String)
    (s : List String) (k : String) :
    k ∈ keys.foldl
        (fun s key => if !(curKeys.contains key) then setAdd s key else s) s
      ↔ k ∈ s ∨ (k ∈ keys ∧ k ∉ curKeys) := by
  induction keys generalizing s with
  | nil => simp
  | cons hd tl ih =>
      simp only [List.foldl_cons]
      by_cases hcur : hd ∈ curKeys
      · rw [if_neg (by simp [hcur])]
        rw [ih]
        constructor
        · rintro (hs | h)
          · exact Or.inl hs
          · exact Or.inr ⟨List.mem_cons_of_mem _ h.1, h.2⟩
        · rintro (hs | ⟨hmem, hnot⟩)
          · exact Or.inl hs
          · rcases List.mem_cons.mp hmem with rfl | h
            · exact absurd hcur hnot
            · exact Or.inr ⟨h, hnot⟩
      · rw [if_pos (by simp [hcur])]
        rw [ih]
        rw [mem_setAdd]
        constructor
        · rintro ((hs | rfl) | h)
          · exact Or.inl hs
          · exact Or.inr ⟨List.mem_cons_self .., hcur⟩
          · exact Or.inr ⟨List.mem_cons_of_mem _ h.1, h.2⟩
        · rintro (hs | ⟨hmem, hnot⟩)
          · exact Or.inl (Or.inl hs)
          · rcases List.mem_cons.mp hmem with rfl | h
            · exact Or.inl (Or.inr rfl)
            · exact Or.inr ⟨h, hnot⟩

theorem removedKeySet_some_eq (previous : List (String × Property))
    (currentKeys : List String) :
    removedKeySet (some previous) currentKeys
      = (keysOf previous).foldl
          (fun s key => if !(currentKeys.contains key) then setAdd s key else s) [] := rfl

theorem mem_removedKeySet (previous : List (String × Property))
    (currentKeys : List String) (k : String) :
    k ∈ removedKeySet (some previous) currentKeys
      ↔ k ∈ keysOf previous ∧ k ∉ currentKeys := by
  rw [removedKeySet_some_eq, mem_removed_foldl]
  simp

theorem removed_foldl_eq (curKeys : List String) (keys : List String)
    (s : List String) (hdisj : ∀ k ∈ keys, k ∉ s) (hnd : keys.Nodup) :
    keys.foldl (fun s key => if !(curKeys.contains key) then setAdd s key else s) s
      = s ++ keys.filter (fun k => !(curKeys.contains k)) := by
  induction keys generalizing s with
  | nil => simp
  | cons hd tl ih =>
      simp only [List.foldl_cons, List.filter_cons]
      rcases List.nodup_cons.mp hnd with ⟨hhd, hndtl⟩
      by_cases hcur : hd ∈ curKeys
      · rw [if_neg (by simp [hcur]), if_neg (by simp [hcur])]
        exact ih s (fun k hk => hdisj k (List.mem_cons_of_mem _ hk)) hndtl
      · have hsadd : setAdd s hd = s ++ [hd] := by
          unfold setAdd
          rw [if_neg]
          intro hc
          exact hdisj hd (List.mem_cons_self ..) (by simpa using hc)
        rw [if_pos (by simp [hcur]), if_pos (by simp [hcur]), hsadd]
        rw [ih (s ++ [hd])]
        · simp
        · intro k hk
          simp only [List.mem_append, List.mem_singleton]
          rintro (hks | rfl)
          · exact hdisj k (List.mem_cons_of_mem _ hk) hks
          · exact hhd hk
        · exact hndtl

theorem removedKeySet_eq_filter (previous : List (String × Property))
    (currentKeys : List String) (hnd : (keysOf previous).Nodup) :
    removedKeySet (some previous) currentKeys
      = (keysOf previous).filter (fun k => !(currentKeys.contains k)) := by
  rw [removedKeySet_some_eq, removed_foldl_eq]
  · simp
  · simp
  · exact hnd

theorem keysOf_jsSpreadPair (a b : List (String × Property)) :
    keysOf (jsSpreadPair a b)
      = keysOf a ++ keysOf (b.filter fun kv => (a.lookup kv.1).isNone) := by
  unfold jsSpreadPair keysOf
  rw [List.map_append]
  congr 1
  induction a with
  | nil => simp
  | cons kv tl ih =>
      simp only [List.map_cons, ih]
      cases h : b.lookup kv.1 <;> simp [h]

theorem mem_keysOf_filter (p : String × Property → Bool)
    (l : List (String × Property)) (k : String) :
    k ∈ keysOf (l.filter p) ↔ ∃ v, (k, v) ∈ l ∧ p (k, v) = true := by
  unfold keysOf
  rw [List.mem_map]
  constructor
  · rintro ⟨⟨k', v⟩, hmem, rfl⟩
    rw [List.mem_filter] at hmem
    exact ⟨v, hmem.1, hmem.2⟩
  · rintro ⟨v, hmem, hp⟩
    exact ⟨(k, v), List.mem_filter.mpr ⟨hmem, hp⟩, rfl⟩

theorem keysOf_filter_subset (p : String × Property → Bool)
    (l : List (String × Property)) (k : String)
    (h : k ∈ keysOf (l.filter p)) : k ∈ keysOf l := by
  obtain ⟨v, hmem, _⟩ := (mem_keysOf_filter p l k).mp h
  exact (mem_keysOf_iff l k).mpr ⟨v, hmem⟩

theorem valueChanged_eq (a b : JSValue) :
    valueChanged a b = decide (¬ a = b) := by
  unfold valueChanged
  split <;> rfl

theorem diffProperties_added (responseMap : Option (List (String × Property)))
    (current : List (String × Property)) (elapsedMiliseconds : Nat) :
    (diffProperties responseMap current elapsedMiliseconds).propertyAddedMap
      = current.filter (isAddedProperty responseMap) := by
  simp [diffProperties, classifyProperties_eq]

theorem diffProperties_modified (responseMap : Option (List (String × Property)))
    (current : List (String × Property)) (elapsedMiliseconds : Nat) :
    (diffProperties responseMap current elapsedMiliseconds).propertyModifiedMap
      = current.filter (isModifiedProperty responseMap) := by
  simp [diffProperties, classifyProperties_eq]

theorem diffProperties_removed (responseMap : Option (List (String × Property)))
    (current : List (String × Property)) (elapsedMiliseconds : Nat) :
    (diffProperties responseMap current elapsedMiliseconds).propertyRemovedSet
      = removedKeySet responseMap (keysOf current) := by
  simp [diffProperties]

theorem diffProperties_retention (responseMap : Option (List (String × Property)))
    (current : List (String × Property)) (elapsedMiliseconds : Nat) :
    (diffProperties responseMap current elapsedMiliseconds).propertyRetentionMap
      = jsSpreadPair
          (current.filter fun kv =>
            ((current.filter (isAddedProperty responseMap)).lookup kv.1).isNone
              && ((current.filter (isModifiedProperty responseMap)).lookup kv.1).isNone
              && !((removedKeySet responseMap (keysOf current)).contains kv.1))
          (defaultRetentionMap elapsedMiliseconds) := by
  simp [diffProperties, classifyProperties_eq]

theorem mem_removed_not_current (responseMap : Option (List (String × Property)))
    (currentKeys : List String) (k : String)
    (h : k ∈ removedKeySet responseMap currentKeys) : k ∉ currentKeys := by
  cases responseMap with
  | none => simp [removedKeySet] at h
  | some previous => exact ((mem_removedKeySet previous currentKeys k).mp h).2

theorem diffProperties_retention_base
    (responseMap : Option (List (String × Property)))
    (current : List (String × Property)) (elapsedMiliseconds : Nat) :
    (diffProperties responseMap current elapsedMiliseconds).propertyRetentionMap
      = jsSpreadPair (retentionBase responseMap current)
          (defaultRetentionMap elapsedMiliseconds) := by
  rw [diffProperties_retention]
  rfl

theorem mem_keysOf_retentionBase (responseMap : Option (List (String × Property)))
    (current : List (String × Property)) (k : String) :
    k ∈ keysOf (retentionBase responseMap current)
      ↔ k ∈ keysOf current
          ∧ k ∉ keysOf (current.filter (isAddedProperty responseMap))
          ∧ k ∉ keysOf (current.filter (isModifiedProperty responseMap)) := by
  unfold retentionBase
  rw [mem_keysOf_filter]
  constructor
  · rintro ⟨v, hmem, hcond⟩
    rw [Bool.and_eq_true, Bool.and_eq_true] at hcond
    obtain ⟨⟨hx, hy⟩, _⟩ := hcond
    refine ⟨(mem_keysOf_iff current k).mpr ⟨v, hmem⟩, ?_, ?_⟩
    · rw [← lookup_eq_none_iff, ← Option.isNone_iff_eq_none]
      exact hx
    · rw [← lookup_eq_none_iff, ← Option.isNone_iff_eq_none]
      exact hy
  · rintro ⟨hcur, hA, hM⟩
    obtain ⟨v, hv⟩ := (mem_keysOf_iff current k).mp hcur
    refine ⟨v, hv, ?_⟩
    rw [Bool.and_eq_true, Bool.and_eq_true]
    refine ⟨⟨?_, ?_⟩, ?_⟩
    · rw [Option.isNone_iff_eq_none, lookup_eq_none_iff]
      exact hA
    · rw [Option.isNone_iff_eq_none, lookup_eq_none_iff]
      exact hM
    · by_cases hc : k ∈ removedKeySet responseMap (keysOf current)
      · exact absurd hcur (mem_removed_not_current _ _ _ hc)
      · simp [hc]

theorem jsSpreadPair_default (a : List (String × Property)) (e : Nat)
    (h : "responseTime" ∉ keysOf a) :
    jsSpreadPair a (defaultRetentionMap e)
      = (a.map fun kv =>
          match (defaultRetentionMap e).lookup kv.1 with
          | some v => (kv.1, v)
          | none => kv)
        ++ [("responseTime", syntheticResponseTimeProperty e)] := by
  unfold jsSpreadPair
  congr 1
  have hnone : a.lookup "responseTime" = none := (lookup_eq_none_iff a _).mpr h
  simp [defaultRetentionMap, List.filter_cons, hnone]

theorem retention_keys_eq (responseMap : Option (List (String × Property)))
    (current : List (String × Property)) (elapsedMiliseconds : Nat)
    (hrt : "responseTime" ∉ keysOf current) :
    keysOf (diffProperties responseMap current elapsedMiliseconds).propertyRetentionMap
      = keysOf (retentionBase responseMap current) ++ ["responseTime"] := by
  have hbase_rt : "responseTime" ∉ keysOf (retentionBase responseMap current) := by
    intro h
    exact hrt (keysOf_filter_subset _ _ _ h)
  have hnone : (retentionBase responseMap current).lookup "responseTime" = none :=
    (lookup_eq_none_iff _ _).mpr hbase_rt
  rw [diffProperties_retention_base, keysOf_jsSpreadPair]
  congr 1
  rw [show ((defaultRetentionMap elapsedMiliseconds).filter
      fun kv => ((retentionBase responseMap current).lookup kv.1).isNone)
      = defaultRetentionMap elapsedMiliseconds from by
    simp [defaultRetentionMap, List.filter_cons, hnone]]
  rfl

/-- Claim C1 counterexample: when the upstream payload itself carries a key
named `responseTime` that classifies as added (here: first-ever snapshot),
that key lands in `added` and, via the always-spread synthetic entry, also in
`retained` — the buckets are not disjoint. -/
theorem C1_counterexample :
    "responseTime" ∈ keysOf (diffProperties none
        [("responseTime",
          { name := "Tempo upstream", value := JSValue.vstr "3ms",
            isListeningModifiedEvent := false })] 12).propertyAddedMap
      ∧ "responseTime" ∈ keysOf (diffProperties none
        [("responseTime",
          { name := "Tempo upstream", value := JSValue.vstr "3ms",
            isListeningModifiedEvent := false })] 12).propertyRetentionMap := by
  decide

/-- Claim C1 (amended): provided the current payload does not itself use the
reserved key `responseTime`, the buckets `added`, `modified`, `retained` are
pairwise disjoint, their union is `keys(current) ∪ {responseTime}` (every
current key lands in exactly one bucket), and the synthetic `responseTime`
entry is always present in `retained`, appended after the classified keys. -/
theorem C1_buckets_partition (responseMap : Option (List (String × Property)))
    (current : List (String × Property)) (elapsedMiliseconds : Nat)
    (hrt : "responseTime" ∉ keysOf current) :
    (∀ k, ¬ (k ∈ keysOf (diffProperties responseMap current elapsedMiliseconds).propertyAddedMap
          ∧ k ∈ keysOf (diffProperties responseMap current elapsedMiliseconds).propertyModifiedMap))
    ∧ (∀ k, ¬ (k ∈ keysOf (diffProperties responseMap current elapsedMiliseconds).propertyAddedMap
          ∧ k ∈ keysOf (diffProperties responseMap current elapsedMiliseconds).propertyRetentionMap))
    ∧ (∀ k, ¬ (k ∈ keysOf (diffProperties responseMap current elapsedMiliseconds).propertyModifiedMap
          ∧ k ∈ keysOf (diffProperties responseMap current elapsedMiliseconds).propertyRetentionMap))
    ∧ (∀ k, (k ∈ keysOf (diffProperties responseMap current elapsedMiliseconds).propertyAddedMap
          ∨ k ∈ keysOf (diffProperties responseMap current elapsedMiliseconds).propertyModifiedMap
          ∨ k ∈ keysOf (diffProperties responseMap current elapsedMiliseconds).propertyRetentionMap)
          ↔ (k ∈ keysOf current ∨ k = "responseTime"))
    ∧ (diffProperties responseMap current elapsedMiliseconds).propertyRetentionMap.getLast?
        = some ("responseTime", syntheticResponseTimeProperty elapsedMiliseconds) := by
  have hA := diffProperties_added responseMap current elapsedMiliseconds
  have hM := diffProperties_modified responseMap current elapsedMiliseconds
  have hretkeys := retention_keys_eq responseMap current elapsedMiliseconds hrt
  have hbase_rt : "responseTime" ∉ keysOf (retentionBase responseMap current) := by
    intro h
    exact hrt (keysOf_filter_subset _ _ _ h)
  refine ⟨?_, ?_, ?_, ?_, ?_⟩
  · intro k ⟨h1, h2⟩
    rw [hA, mem_keysOf_filter] at h1
    rw [hM, mem_keysOf_filter] at h2
    obtain ⟨v, _, hp1⟩ := h1
    obtain ⟨w, _, hp2⟩ := h2
    simp only [isAddedProperty, Bool.not_eq_true'] at hp1
    simp only [isModifiedProperty, Bool.and_eq_true] at hp2
    rw [hp1] at hp2
    exact Bool.false_ne_true hp2.1.1
  · intro k ⟨h1, h2⟩
    rw [hretkeys, List.mem_append, List.mem_singleton] at h2
    rcases h2 with h2 | rfl
    · obtain ⟨_, hnA, _⟩ := (mem_keysOf_retentionBase responseMap current k).mp h2
      rw [hA] at h1
      exact hnA h1
    · rw [hA] at h1
      exact hrt (keysOf_filter_subset _ _ _ h1)
  · intro k ⟨h1, h2⟩
    rw [hretkeys, List.mem_append, List.mem_singleton] at h2
    rcases h2 with h2 | rfl
    · obtain ⟨_, _, hnM⟩ := (mem_keysOf_retentionBase responseMap current k).mp h2
      rw [hM] at h1
      exact hnM h1
    · rw [hM] at h1
      exact hrt (keysOf_filter_subset _ _ _ h1)
  · intro k
    constructor
    · rintro (h | h | h)
      · rw [hA] at h
        exact Or.inl (keysOf_filter_subset _ _ _ h)
      · rw [hM] at h
        exact Or.inl (keysOf_filter_subset _ _ _ h)
      · rw [hretkeys, List.mem_append, List.mem_singleton] at h
        rcases h with h | rfl
        · exact Or.inl ((mem_keysOf_retentionBase responseMap current k).mp h).1
        · exact Or.inr rfl
    · rintro (h | rfl)
      · by_cases ha :
            k ∈ keysOf (diffProperties responseMap current elapsedMiliseconds).propertyAddedMap
        · exact Or.inl ha
        · by_cases hm :
              k ∈ keysOf (diffProperties responseMap current elapsedMiliseconds).propertyModifiedMap
          · exact Or.inr (Or.inl hm)
          · refine Or.inr (Or.inr ?_)
            rw [hretkeys, List.mem_append]
            refine Or.inl ((mem_keysOf_retentionBase responseMap current k).mpr ⟨h, ?_, ?_⟩)
            · rw [← hA]
              exact ha
            · rw [← hM]
              exact hm
      · refine Or.inr (Or.inr ?_)
        rw [hretkeys, List.mem_append, List.mem_singleton]
        exact Or.inr rfl
  · rw [diffProperties_retention_base, jsSpreadPair_default _ _ hbase_rt]
    exact List.getLast?_concat _

/-- Witness for the amended C1 at a concrete diff: on the example snapshot
pair the key `label` is not in both `added` and `modified`. -/
theorem C1_witness :
    ¬ ("label" ∈ keysOf (diffProperties (some previousSnapshotW) currentPayloadW 12).propertyAddedMap
        ∧ "label" ∈ keysOf (diffProperties (some previousSnapshotW) currentPayloadW 12).propertyModifiedMap) :=
  (C1_buckets_partition (some previousSnapshotW) currentPayloadW 12 (by decide)).1 "label"

/-- Claim C2: a key present in both snapshots is classified as modified
exactly when its current property has the watch flag set, a defined value,
and that value is structurally unequal to the previous one; in particular an
unwatched property is never modified. -/
theorem C2_modified_iff (previous current : List (String × Property))
    (elapsedMiliseconds : Nat) (k : String)
    (newProperty oldProperty : Property)
    (hnodup : (keysOf current).Nodup)
    (hcur : current.lookup k = some newProperty)
    (hprev : previous.lookup k = some oldProperty) :
    k ∈ keysOf (diffProperties (some previous) current elapsedMiliseconds).propertyModifiedMap
      ↔ (newProperty.isListeningModifiedEvent = true
          ∧ ¬ newProperty.value = JSValue.vundefined
          ∧ ¬ newProperty.value = oldProperty.value) := by
  have hkprev : k ∈ keysOf previous :=
    (lookup_isSome_iff previous k).mp (by simp [hprev])
  have hpred : isModifiedProperty (some previous) (k, newProperty) = true
      ↔ (newProperty.isListeningModifiedEvent = true
          ∧ ¬ newProperty.value = JSValue.vundefined
          ∧ ¬ newProperty.value = oldProperty.value) := by
    simp only [isModifiedProperty, valueChanged_eq, keySetHas]
    simp [hprev, optionalValue, hkprev]
    tauto
  rw [diffProperties_modified, mem_keysOf_filter]
  constructor
  · rintro ⟨v, hmem, hp⟩
    have hv : current.lookup k = some v := lookup_of_mem_nodup hnodup hmem
    rw [hcur] at hv
    injection hv with hv
    subst hv
    exact hpred.mp hp
  · intro hcond
    exact ⟨newProperty, lookup_mem hcur, hpred.mpr hcond⟩

/-- Witness for C2: on the example snapshots, the watched `count` property
changed value and is classified as modified. -/
theorem C2_witness :
    "count" ∈ keysOf (diffProperties (some previousSnapshotW) currentPayloadW 12).propertyModifiedMap :=
  (C2_modified_iff previousSnapshotW currentPayloadW 12 "count"
      currentCountProperty previousCountProperty
      (by decide) (by decide) (by decide)).mpr
    ⟨rfl, by decide, by decide⟩

/-- Claim C8: the removed bucket is exactly `keys(previous) − keys(current)`
(the filter inspects only key names, so it is independent of value content),
and it is empty when the previous snapshot is null. -/
theorem C8_removed_exact (current : List (String × Property))
    (elapsedMiliseconds : Nat) :
    (diffProperties none current elapsedMiliseconds).propertyRemovedSet = []
    ∧ ∀ previous : List (String × Property), (keysOf previous).Nodup →
        (diffProperties (some previous) current elapsedMiliseconds).propertyRemovedSet
          = (keysOf previous).filter (fun k => !((keysOf current).contains k)) := by
  constructor
  · rw [diffProperties_removed]
    rfl
  · intro previous hnd
    rw [diffProperties_removed]
    exact removedKeySet_eq_filter previous (keysOf current) hnd

/-- Witness for C8: concrete previous snapshot diffed against an empty
current payload; both stored keys are removed. -/
theorem C8_witness :
    (diffProperties (some previousSnapshotW) [] 7).propertyRemovedSet
      = (keysOf previousSnapshotW).filter
          (fun k => !((keysOf ([] : List (String × Property))).contains k)) :=
  (C8_removed_exact [] 7).2 previousSnapshotW (by decide)

theorem processMonitorApplication_update_eq
    (monitorApplication : MonitorApplication)
    (healthMap : MonitorApplicationHealthMap) (isPeriodicWarn : Bool) (now : Int)
    (upd : UpdateData) (m : MonitorApplicationMap)
    (h : processMonitorApplication monitorApplication healthMap isPeriodicWarn now
        = some (upd, m)) :
    upd = { response_map := healthMap.responseMap
            is_alive :=
              if healthMap.isHealthy != monitorApplication.is_alive
              then healthMap.isHealthy else monitorApplication.is_alive
            is_alive_transition_at :=
              if healthMap.isHealthy != monitorApplication.is_alive
              then now else monitorApplication.is_alive_transition_at
            updated_at := now } := by
  simp only [processMonitorApplication] at h
  split at h
  · injection h with hpair
    exact ((Prod.ext_iff.mp hpair).1).symm
  · exact Option.noConfusion h

/-- Claim C3: whenever a per-service outcome is persisted, the stored alive
flag flips exactly when the fetched reachability differs from it, the
transition timestamp is set to the current instant exactly on that flip, and
on every other persisted update both fields keep their prior values. -/
theorem C3_alive_transition (monitorApplication : MonitorApplication)
    (healthMap : MonitorApplicationHealthMap) (isPeriodicWarn : Bool) (now : Int)
    (upd : UpdateData) (m : MonitorApplicationMap)
    (h : processMonitorApplication monitorApplication healthMap isPeriodicWarn now
        = some (upd, m)) :
    (upd.is_alive ≠ monitorApplication.is_alive
        ↔ healthMap.isHealthy ≠ monitorApplication.is_alive)
    ∧ (healthMap.isHealthy ≠ monitorApplication.is_alive
        → upd.is_alive = healthMap.isHealthy ∧ upd.is_alive_transition_at = now)
    ∧ (healthMap.isHealthy = monitorApplication.is_alive
        → upd.is_alive = monitorApplication.is_alive
          ∧ upd.is_alive_transition_at = monitorApplication.is_alive_transition_at) := by
  have hupd := processMonitorApplication_update_eq monitorApplication healthMap
    isPeriodicWarn now upd m h
  subst hupd
  by_cases ht : healthMap.isHealthy = monitorApplication.is_alive
  · have hb : (healthMap.isHealthy != monitorApplication.is_alive) = false := by
      simp [ht]
    refine ⟨?_, ?_, ?_⟩
    · simp [hb, ht]
    · intro hcon
      exact absurd ht hcon
    · intro _
      simp [hb]
  · have hb : (healthMap.isHealthy != monitorApplication.is_alive) = true := by
      simp [ht]
    refine ⟨?_, ?_, ?_⟩
    · simp [hb, ht]
    · intro _
      simp [hb]
    · intro hcon
      exact absurd hcon ht

/-- Witness for C3: a dead service found reachable at instant 250 flips to
alive with its transition timestamp set to 250. -/
theorem C3_witness :
    transitionUpdateW.is_alive = healthyHealthMapW.isHealthy
      ∧ transitionUpdateW.is_alive_transition_at = 250 :=
  (C3_alive_transition deadApplicationW healthyHealthMapW false 250
      transitionUpdateW transitionRenderW rfl).2.1 (by decide)

/-- Claim C4 (legacy flow): on a change-driven tick, a service whose
reachability matches its stored flag but whose transition was never
acknowledged is still reportable — the persisted update rewrites
`is_alive_transition_at` with its prior value (untouched) and the render is
non-null, reflecting the stored state. -/
theorem C4_pending_notification (monitorApplication : Legacy.MonitorApplication)
    (healthMap : Legacy.MonitorApplicationHealthMap) (now : Int)
    (hsame : healthMap.isHealthy = monitorApplication.is_alive)
    (hpending : monitorApplication.is_alive_transition_notified_by_monitor = false) :
    (Legacy.processMonitorApplication monitorApplication healthMap false now).1
        = some { is_alive := monitorApplication.is_alive
                 is_alive_transition_notified_by_monitor := true
                 is_alive_transition_at := monitorApplication.is_alive_transition_at }
    ∧ (Legacy.processMonitorApplication monitorApplication healthMap false now).2
        = some { isHealthy := monitorApplication.is_alive
                 information := Legacy.formatMonitorApplicationInformation
                   monitorApplication healthMap
                   monitorApplication.is_alive_transition_at now } := by
  have heval : Legacy.processMonitorApplication monitorApplication healthMap false now
      = (some { is_alive := monitorApplication.is_alive
                is_alive_transition_notified_by_monitor := true
                is_alive_transition_at := monitorApplication.is_alive_transition_at },
         some { isHealthy := monitorApplication.is_alive
                information := Legacy.formatMonitorApplicationInformation
                  monitorApplication healthMap
                  monitorApplication.is_alive_transition_at now }) := by
    unfold Legacy.processMonitorApplication
    cases halive : monitorApplication.is_alive <;>
      rw [hsame] <;> simp [halive, hpending]
  rw [heval]
  exact ⟨rfl, rfl⟩

/-- Witness for C4: a concrete alive-and-reachable service with a pending
unacknowledged transition yields a persisted update keeping timestamp 100
and a non-null render. -/
theorem C4_witness :
    (Legacy.processMonitorApplication legacyPendingApplicationW
        legacyHealthyHealthMapW false 777).1
        = some { is_alive := legacyPendingApplicationW.is_alive
                 is_alive_transition_notified_by_monitor := true
                 is_alive_transition_at := legacyPendingApplicationW.is_alive_transition_at }
    ∧ (Legacy.processMonitorApplication legacyPendingApplicationW
        legacyHealthyHealthMapW false 777).2
        = some { isHealthy := legacyPendingApplicationW.is_alive
                 information := Legacy.formatMonitorApplicationInformation
                   legacyPendingApplicationW legacyHealthyHealthMapW
                   legacyPendingApplicationW.is_alive_transition_at 777 } :=
  C4_pending_notification legacyPendingApplicationW legacyHealthyHealthMapW 777
    (by decide) (by decide)

/-- Claim C5 (code-bug evidence): when the gateway response carries data but
no sub-resource under the service's api name — and likewise when the api row
cannot be resolved — the current fetch evaluates `subResponse.status` on
`undefined`/`null` and throws a TypeError instead of returning
`isHealthy = false`; the throw is then swallowed by
`processMonitorApplication`'s catch, so the service is dropped from the
report rather than flipped to dead. -/
theorem C5_missing_subresource_throws :
    fetchMonitorApplicationHealthMap
        (some [("otherService", { status := true, data := none })])
        (some "targetService") none 12 = .error ()
    ∧ fetchMonitorApplicationHealthMap
        (some [("otherService", { status := true, data := none })])
        none none 12 = .error () :=
  ⟨rfl, rfl⟩

/-- Claim C7 (code-bug evidence): with a non-empty report and a failing
transport post, the current `sendApplicationMonitoringReport` lets the
rejection escape and logs nothing (its caller invokes it without `await`, so
the orchestrator's catch cannot observe the rejection either), whereas the
legacy `sendMonitoringReport` contains and logs the same failure. -/
theorem C7_delivery_failure_escapes :
    sendApplicationMonitoringReportRun ["[API]"] [] [] [] [] true
      = { thrown := true, loggedError := false }
    ∧ Legacy.sendMonitoringReportRun ["[API]"] [] true
      = { thrown := false, loggedError := true } :=
  ⟨rfl, rfl⟩

/-- Claim C9: when every processed service yields no reportable outcome, all
five aggregated buckets are empty and the notification sink is not invoked. -/
theorem C9_empty_report_skipped (serverIp : String)
    (monitorApplicationMapList : List (Option MonitorApplicationMap))
    (hall : ∀ r ∈ monitorApplicationMapList, r = none) :
    aggregateBuckets (monitorApplicationMapList.filterMap id) = ([], [], [], [], [])
    ∧ runReportPipeline serverIp monitorApplicationMapList = none := by
  have hfil : monitorApplicationMapList.filterMap id = [] := by
    rw [List.filterMap_eq_nil_iff]
    intro a ha
    simpa using hall a ha
  constructor
  · rw [hfil]
    rfl
  · unfold runReportPipeline
    rw [hfil]
    rfl

theorem join_filterMap_cons (o : Option String) (rest : List (Option String)) :
    String.join ((o :: rest).filterMap id) = o.getD "" ++ String.join (rest.filterMap id) := by
  cases o with
  | none => simp [List.filterMap_cons, String.empty_append]
  | some s => simp [List.filterMap_cons, join_cons_eq]

theorem optGetD_if (c : Prop) [Decidable c] (x : String) :
    (if c then some x else none).getD "" = if c then x else "" := by
  split <;> rfl

theorem reduceValueLines_eq (marker head : String) (properties : List Property) :
    reduceValueLines marker head properties = head ++ renderValueLines marker properties := by
  unfold reduceValueLines renderValueLines
  rw [show (fun (accumulator : String) (property : Property) =>
        accumulator ++ s!"\n{marker} {property.name}: _"
          ++ property.value.toDisplayString ++ "_")
      = (fun (accumulator : String) (property : Property) =>
        accumulator ++ (s!"\n{marker} {property.name}: _"
          ++ property.value.toDisplayString ++ "_")) from ?_]
  · exact foldl_append_join
      (fun property => s!"\n{marker} {property.name}: _"
        ++ property.value.toDisplayString ++ "_") properties head
  · funext accumulator property
    simp [String.append_assoc]

theorem reduceNameLines_eq (head : String) (names : List String) :
    reduceNameLines head names = head ++ renderNameLines names := by
  unfold reduceNameLines renderNameLines
  exact foldl_append_join (fun nm => s!"\n- {nm}") names head

set_option maxRecDepth 40000 in
/-- Claim C6 counterexample: a report carrying five service renders (so at
least five services were evaluated) equals a literal whose only digits are
the per-section counts `(1)` and the host address — the text ends at the
host footer and contains no character `5`, so no footer names the total
number of services evaluated. -/
theorem C6_counterexample :
    reportMessage "10.0.0.9" ["sA"] ["sB"] ["sC"] ["sD"] ["sE"]
      = "📌 *MONITOR DE SERVIÇOS* 📌\n\n⚡ *SERVIÇO ONLINE (1)* ⚡\n\nsA\n\n💤 *SERVIÇO OFFLINE (1)* 💤\n\nsB\n\n🔼 *PROP. ADICIONADA (1)* 🔼\n\nsC\n\n🔄 *PROP. MODIFICADA (1)* 🔄\n\nsD\n\n🔽 *PROP. REMOVIDA (1)* 🔽\n\nsE\n\n🌐 *Servidor*: _10.0.0.9_"
    ∧ '5' ∉ (reportMessage "10.0.0.9" ["sA"] ["sB"] ["sC"] ["sD"] ["sE"]).toList := by
  constructor
  · decide
  · decide

set_option maxRecDepth 4000 in
/-- Claim C6 (amended): the report has a fixed shape — header, the non-empty
sections in the order online, offline, added, modified, removed, each
non-empty section's title carrying its element count, ending with a footer
naming the originating host (no total count in the current generation); and
property lines render as `<marker> <name>: _<value>_` with `+`/`~`/`=`
markers (removed keys as `- <name>`). -/
theorem C6_report_shape :
    (∀ (serverIp : String) (onl off addl mdfl rmvl : List String),
      reportMessage serverIp onl off addl mdfl rmvl
        = "📌 *MONITOR DE SERVIÇOS* 📌"
            ++ onlineSection onl ++ offlineSection off ++ addedSection addl
            ++ modifiedSection mdfl ++ removedSection rmvl
            ++ s!"\n\n🌐 *Servidor*: _{serverIp}_")
    ∧ (∀ l : List String, onlineSection l = ""
          ∨ ∃ front back, onlineSection l = front ++ toString l.length ++ back)
    ∧ (∀ l : List String, offlineSection l = ""
          ∨ ∃ front back, offlineSection l = front ++ toString l.length ++ back)
    ∧ (∀ l : List String, addedSection l = ""
          ∨ ∃ front back, addedSection l = front ++ toString l.length ++ back)
    ∧ (∀ l : List String, modifiedSection l = ""
          ∨ ∃ front back, modifiedSection l = front ++ toString l.length ++ back)
    ∧ (∀ l : List String, removedSection l = ""
          ∨ ∃ front back, removedSection l = front ++ toString l.length ++ back)
    ∧ (∀ (monitorApplication : MonitorApplication)
          (healthMap : MonitorApplicationHealthMap)
          (isAliveTransitionAt : Option Int) (now : Int),
        ((formatMonitorApplicationMessageMap monitorApplication healthMap
            isAliveTransitionAt now).propertyAddedMessage = none
          ∨ (formatMonitorApplicationMessageMap monitorApplication healthMap
              isAliveTransitionAt now).propertyAddedMessage
            = some (s!"[{monitorApplication.application_type}]"
                ++ renderValueLines "+" ((healthMap.propertyAddedMap.getD []).map Prod.snd)))
        ∧ ((formatMonitorApplicationMessageMap monitorApplication healthMap
            isAliveTransitionAt now).propertyModifiedMessage = none
          ∨ (formatMonitorApplicationMessageMap monitorApplication healthMap
              isAliveTransitionAt now).propertyModifiedMessage
            = some (s!"[{monitorApplication.application_type}]"
                ++ renderValueLines "~" ((healthMap.propertyModifiedMap.getD []).map Prod.snd)))
        ∧ ((formatMonitorApplicationMessageMap monitorApplication healthMap
            isAliveTransitionAt now).propertyRemovedMessage = none
          ∨ (formatMonitorApplicationMessageMap monitorApplication healthMap
              isAliveTransitionAt now).propertyRemovedMessage
            = some (s!"[{monitorApplication.application_type}]"
                ++ renderNameLines (healthMap.propertyRemovedSet.getD [])))
        ∧ (formatMonitorApplicationMessageMap monitorApplication healthMap
            isAliveTransitionAt now).propertyRetentionMessage
            = (match isAliveTransitionAt with
               | some t => s!"[{monitorApplication.application_type}]" ++ "\n= Desde: _"
                   ++ formatDuration (((now - t : Int) : Rat) / 60000) ++ "_"
               | none => s!"[{monitorApplication.application_type}]")
              ++ renderValueLines "="
                  (healthMap.propertyRetentionMap.map Prod.snd)) := by
  refine ⟨?_, ?_, ?_, ?_, ?_, ?_, ?_⟩
  · intro serverIp onl off addl mdfl rmvl
    unfold reportMessage
    rw [join_filterMap_cons, join_filterMap_cons, join_filterMap_cons, join_filterMap_cons,
      join_filterMap_cons, join_filterMap_cons, join_filterMap_cons]
    simp only [Option.getD_some, optGetD_if]
    unfold onlineSection offlineSection addedSection modifiedSection removedSection
    simp [String.append_assoc, String.append_empty, String.join]
  · intro l
    by_cases hl : l.length > 0
    · refine Or.inr ⟨"\n\n⚡ *SERVIÇO ONLINE (",
        ")* ⚡\n\n" ++ String.intercalate "\n\n" l, ?_⟩
      unfold onlineSection
      rw [if_pos hl]
      simp only [String.append_assoc]
      rfl
    · exact Or.inl (by unfold onlineSection; rw [if_neg hl])
  · intro l
    by_cases hl : l.length > 0
    · refine Or.inr ⟨"\n\n💤 *SERVIÇO OFFLINE (",
        ")* 💤\n\n" ++ String.intercalate "\n\n" l, ?_⟩
      unfold offlineSection
      rw [if_pos hl]
      simp only [String.append_assoc]
      rfl
    · exact Or.inl (by unfold offlineSection; rw [if_neg hl])
  · intro l
    by_cases hl : l.length > 0
    · refine Or.inr ⟨"\n\n🔼 *PROP. ADICIONADA (",
        ")* 🔼\n\n" ++ String.intercalate "\n\n" l, ?_⟩
      unfold addedSection
      rw [if_pos hl]
      simp only [String.append_assoc]
      rfl
    · exact Or.inl (by unfold addedSection; rw [if_neg hl])
  · intro l
    by_cases hl : l.length > 0
    · refine Or.inr ⟨"\n\n🔄 *PROP. MODIFICADA (",
        ")* 🔄\n\n" ++ String.intercalate "\n\n" l, ?_⟩
      unfold modifiedSection
      rw [if_pos hl]
      simp only [String.append_assoc]
      rfl
    · exact Or.inl (by unfold modifiedSection; rw [if_neg hl])
  · intro l
    by_cases hl : l.length > 0
    · refine Or.inr ⟨"\n\n🔽 *PROP. REMOVIDA (",
        ")* 🔽\n\n" ++ String.intercalate "\n\n" l, ?_⟩
      unfold removedSection
      rw [if_pos hl]
      simp only [String.append_assoc]
      rfl
    · exact Or.inl (by unfold removedSection; rw [if_neg hl])
  · intro monitorApplication healthMap isAliveTransitionAt now
    refine ⟨?_, ?_, ?_, ?_⟩
    · cases hA : healthMap.propertyAddedMap with
      | none => exact Or.inl (by simp [formatMonitorApplicationMessageMap, hA])
      | some m =>
          by_cases hm : m.length = 0
          · exact Or.inl (by simp [formatMonitorApplicationMessageMap, hA, hm])
          · refine Or.inr ?_
            have hm' : (m.length != 0) = true := by simpa using hm
            simp [formatMonitorApplicationMessageMap, hA, hm', reduceValueLines_eq]
    · cases hA : healthMap.propertyModifiedMap with
      | none => exact Or.inl (by simp [formatMonitorApplicationMessageMap, hA])
      | some m =>
          by_cases hm : m.length = 0
          · exact Or.inl (by simp [formatMonitorApplicationMessageMap, hA, hm])
          · refine Or.inr ?_
            have hm' : (m.length != 0) = true := by simpa using hm
            simp [formatMonitorApplicationMessageMap, hA, hm', reduceValueLines_eq]
    · cases hA : healthMap.propertyRemovedSet with
      | none => exact Or.inl (by simp [formatMonitorApplicationMessageMap, hA])
      | some s =>
          by_cases hm : s.length = 0
          · exact Or.inl (by simp [formatMonitorApplicationMessageMap, hA, hm])
          · refine Or.inr ?_
            have hm' : (s.length != 0) = true := by simpa using hm
            simp [formatMonitorApplicationMessageMap, hA, hm', reduceNameLines_eq]
    · cases isAliveTransitionAt with
      | none => simp [formatMonitorApplicationMessageMap, reduceValueLines_eq]
      | some t => simp [formatMonitorApplicationMessageMap, reduceValueLines_eq]

/-- Witness for C9: five healthy, unchanged services on a change-driven tick
yield no renders, empty buckets, and no notification. -/
theorem C9_witness :
    aggregateBuckets ((List.replicate 5
        ((processMonitorApplication aliveApplicationW quietHealthMapW false 300).map
          Prod.snd)).filterMap id)
      = ([], [], [], [], [])
    ∧ runReportPipeline "10.0.0.9" (List.replicate 5
        ((processMonitorApplication aliveApplicationW quietHealthMapW false 300).map
          Prod.snd)) = none :=
  C9_empty_report_skipped "10.0.0.9" _ (by decide)

theorem floor_div_1440 (t : ℕ) :
    ⌊((t : ℤ) : ℚ) / (60 * 24)⌋ = ((t / 1440 : ℕ) : ℤ) := by
  rw [show ((60 : ℚ) * 24) = ((1440 : ℕ) : ℚ) from by norm_num]
  rw [Rat.floor_intCast_div_natCast]
  exact_mod_cast rfl

theorem floor_div_60 (t : ℕ) :
    ⌊((t : ℤ) : ℚ) / 60⌋ = ((t / 60 : ℕ) : ℤ) := by
  rw [show (60 : ℚ) = ((60 : ℕ) : ℚ) from by norm_num]
  rw [Rat.floor_intCast_div_natCast]
  exact_mod_cast rfl

theorem floor_jsMod_hours (t : ℕ) :
    ⌊jsMod (((t : ℤ) : ℚ) / 60) 24⌋ = ((t / 60 % 24 : ℕ) : ℤ) := by
  unfold jsMod jsTrunc
  rw [show ((t : ℤ) : ℚ) / 60 / 24 = ((t : ℤ) : ℚ) / (60 * 24) from by rw [div_div]]
  rw [if_pos (by positivity)]
  rw [floor_div_1440]
  rw [show ((24 : ℚ) * (((t / 1440 : ℕ) : ℤ) : ℚ)) = (((24 * (t / 1440) : ℕ) : ℕ) : ℚ) from by
    norm_cast]
  rw [Int.floor_sub_nat, floor_div_60]
  have hdd : t / 1440 = t / 60 / 24 := by
    rw [Nat.div_div_eq_div_mul]
  rw [hdd]
  omega

theorem floor_jsMod_minutes (t : ℕ) :
    ⌊jsMod ((t : ℤ) : ℚ) 60⌋ = ((t % 60 : ℕ) : ℤ) := by
  unfold jsMod jsTrunc
  rw [if_pos (by positivity)]
  rw [floor_div_60]
  rw [show ((60 : ℚ) * (((t / 60 : ℕ) : ℤ) : ℚ)) = (((60 * (t / 60) : ℕ) : ℕ) : ℚ) from by
    norm_cast]
  rw [Int.floor_sub_nat]
  rw [show ⌊((t : ℤ) : ℚ)⌋ = (t : ℤ) from by exact_mod_cast Int.floor_intCast (α := ℚ) (t : ℤ)]
  omega

theorem formatDuration_nonneg_eq (m : Rat) (hm : 0 ≤ m) :
    formatDuration m
      = renderDurationParts ((⌊m⌋).toNat / 1440) ((⌊m⌋).toNat / 60 % 24) ((⌊m⌋).toNat % 60) := by
  have hfl : 0 ≤ ⌊m⌋ := Int.floor_nonneg.mpr hm
  obtain ⟨t, hT⟩ : ∃ t : ℕ, ⌊m⌋ = (t : ℤ) := ⟨(⌊m⌋).toNat, (Int.toNat_of_nonneg hfl).symm⟩
  have htos : ∀ n : ℕ, toString ((n : ℕ) : ℤ) = toString n := fun _ => rfl
  unfold formatDuration
  rw [hT]
  simp only [Int.toNat_natCast]
  rw [floor_div_1440, floor_jsMod_hours, floor_jsMod_minutes]
  unfold renderDurationParts
  simp only [gt_iff_lt, Int.natCast_pos]
  by_cases hd : 0 < t / 1440 <;> by_cases hh : 0 < t / 60 % 24 <;> by_cases hr : 0 < t % 60 <;>
    simp only [hd, hh, hr, if_true, if_false, ite_true, ite_false, htos] <;>
    simp [List.filterMap_cons, String.intercalate, String.intercalate.go]

theorem days_part_ne (d : ℕ) : toString d ++ "d" ≠ "0m" := by
  intro heq
  have hdata := congrArg String.data heq
  rw [String.data_append] at hdata
  rw [show ("d" : String).data = ['d'] from rfl] at hdata
  rw [show ("0m" : String).data = ['0', 'm'] from rfl] at hdata
  have hlast := congrArg List.getLast? hdata
  rw [List.getLast?_concat] at hlast
  simp at hlast

theorem hours_part_ne (h : ℕ) : toString h ++ "h" ≠ "0m" := by
  intro heq
  have hdata := congrArg String.data heq
  rw [String.data_append] at hdata
  rw [show ("h" : String).data = ['h'] from rfl] at hdata
  rw [show ("0m" : String).data = ['0', 'm'] from rfl] at hdata
  have hlast := congrArg List.getLast? hdata
  rw [List.getLast?_concat] at hlast
  simp at hlast

theorem minutes_part_ne : ∀ r : ℕ, r < 60 → 0 < r → ¬ (toString r ++ "m" = "0m") := by
  decide

theorem append_space_ne (a b : String) : a ++ " " ++ b ≠ "0m" := by
  intro heq
  have hdata := congrArg String.data heq
  rw [String.data_append, String.data_append] at hdata
  have hmem : ' ' ∈ ("0m" : String).data := by
    rw [← hdata]
    simp [show (" " : String).data = [' '] from rfl]
  revert hmem
  decide

theorem renderDurationParts_ne (d h r : ℕ) (hr60 : r < 60)
    (hnz : ¬(d = 0 ∧ h = 0 ∧ r = 0)) :
    renderDurationParts d h r ≠ "0m" := by
  unfold renderDurationParts
  by_cases hd : 0 < d <;> by_cases hh : 0 < h <;> by_cases hhr : 0 < r <;>
    simp only [hd, hh, hhr, if_true, if_false, ite_true, ite_false,
      List.nil_append, List.append_nil, List.cons_append, List.singleton_append] <;>
    simp [String.intercalate, String.intercalate.go]
  · exact append_space_ne _ _
  · exact append_space_ne _ _
  · exact append_space_ne _ _
  · exact days_part_ne d
  · exact append_space_ne _ _
  · exact hours_part_ne h
  · exact minutes_part_ne r hr60 hhr
  · omega

/-- Claim C10: for every non-negative (possibly fractional) minute count,
`formatDuration` decomposes `floor(m)` into `d` days, `h` hours and `r`
minutes with `d*1440 + h*60 + r = floor(m)`, `h < 24`, `r < 60`, renders only
the non-zero components in the order days, hours, minutes joined by single
spaces, and returns `"0m"` exactly when `floor(m) = 0`. -/
theorem C10_formatDuration (m : Rat) (hm : 0 ≤ m) :
    formatDuration m
      = renderDurationParts ((⌊m⌋).toNat / 1440) ((⌊m⌋).toNat / 60 % 24) ((⌊m⌋).toNat % 60)
    ∧ ((⌊m⌋).toNat / 1440) * 1440 + ((⌊m⌋).toNat / 60 % 24) * 60 + (⌊m⌋).toNat % 60
        = (⌊m⌋).toNat
    ∧ (⌊m⌋).toNat / 60 % 24 < 24
    ∧ (⌊m⌋).toNat % 60 < 60
    ∧ (formatDuration m = "0m" ↔ ⌊m⌋ = 0) := by
  have heq := formatDuration_nonneg_eq m hm
  have hfl : 0 ≤ ⌊m⌋ := Int.floor_nonneg.mpr hm
  refine ⟨heq, by omega, by omega, by omega, ?_, ?_⟩
  · intro h0
    by_contra hne
    have ht : (⌊m⌋).toNat ≠ 0 := by omega
    have hni := renderDurationParts_ne ((⌊m⌋).toNat / 1440) ((⌊m⌋).toNat / 60 % 24)
      ((⌊m⌋).toNat % 60) (by omega) (by omega)
    rw [heq] at h0
    exact hni h0
  · intro h0
    rw [heq]
    rw [show (⌊m⌋).toNat = 0 from by omega]
    rfl

/-- Witness for C10 at 1445.5 minutes (= 2891/2): one day and five minutes. -/
theorem C10_witness :
    formatDuration (2891 / 2 : Rat)
      = renderDurationParts ((⌊(2891 / 2 : Rat)⌋).toNat / 1440)
          ((⌊(2891 / 2 : Rat)⌋).toNat / 60 % 24) ((⌊(2891 / 2 : Rat)⌋).toNat % 60)
    ∧ ((⌊(2891 / 2 : Rat)⌋).toNat / 1440) * 1440
        + ((⌊(2891 / 2 : Rat)⌋).toNat / 60 % 24) * 60 + (⌊(2891 / 2 : Rat)⌋).toNat % 60
        = (⌊(2891 / 2 : Rat)⌋).toNat
    ∧ (⌊(2891 / 2 : Rat)⌋).toNat / 60 % 24 < 24
    ∧ (⌊(2891 / 2 : Rat)⌋).toNat % 60 < 60
    ∧ (formatDuration (2891 / 2 : Rat) = "0m" ↔ ⌊(2891 / 2 : Rat)⌋ = 0) :=
  C10_formatDuration (2891 / 2 : Rat) (by norm_num)

end Monitor
